import Mathlib

/-!
Shallow embedding of the tool-dispatch gateway of the
truefoundry/tfy-salesforce-mcp repository (src/index.ts and
src/tools/search-fetch.ts, the latter shipped in two variants in one
file), together with theorems settling the specification claims.

JavaScript values that flow through the untyped argument bag are
modelled by `JsVal`; machine strings are Lean `String`; a JavaScript
exception is an `Except.error` carrying the message string; the external
Salesforce connection is a record of fallible operations.  Handlers are
instrumented with an explicit trace of backend interactions so that
claims about which backend calls happen (and in which order) are
statable.
-/

/-! ## JavaScript value model -/

/-- An untyped JavaScript value as it appears in a tool-call argument
bag.  Numbers are modelled by `Int` (the dispatcher only ever tests
truthiness and array-ness of arguments, never numeric fine structure). -/
inductive JsVal where
  | str : String → JsVal
  | num : Int → JsVal
  | bool : Bool → JsVal
  | arr : List JsVal → JsVal
  | obj : List (String × JsVal) → JsVal
  | null : JsVal

/-- JavaScript truthiness of a present value: the empty string, 0,
false and null are falsy; arrays and objects are always truthy. -/
def truthy : JsVal → Bool
  | JsVal.str s => !(s = "")
  | JsVal.num n => !(n = 0)
  | JsVal.bool b => b
  | JsVal.arr _ => true
  | JsVal.obj _ => true
  | JsVal.null => false

/-- The untyped key-to-value argument mapping of a tool request. -/
abbrev ArgBag := List (String × JsVal)

/-- Property lookup on an argument bag; `none` models `undefined`. -/
def getArg : ArgBag → String → Option JsVal
  | [], _ => none
  | (k, v) :: rest, key => if k = key then some v else getArg rest key

/-- Truthiness of a possibly-absent value (`undefined` is falsy). -/
def truthyOpt : Option JsVal → Bool
  | some v => truthy v
  | none => false

/-- `Array.isArray` on a possibly-absent value. -/
def isArrOpt : Option JsVal → Bool
  | some (JsVal.arr _) => true
  | _ => false

/-- The element list of a value known to be an array (`[]` otherwise). -/
def arrOf : Option JsVal → List JsVal
  | some (JsVal.arr l) => l
  | _ => []

/-- Property lookup on a value: `undefined` unless the value is an
object holding the key (models `obj.name` on an arbitrary element). -/
def objField : JsVal → String → Option JsVal
  | JsVal.obj fields, k => getArg fields k
  | _, _ => none

/-! ## ToolResult envelope (the MCP wire envelope) -/

/-- A typed content block of a ToolResult; the gateway only ever emits
text blocks. -/
inductive ContentBlock where
  | text : String → ContentBlock
deriving DecidableEq, Repr

/-- The ToolResult envelope returned for every tool call. -/
structure ToolResult where
  content : List ContentBlock
  isError : Bool
deriving DecidableEq, Repr

/-! ## Dispatcher (src/index.ts, CallToolRequestSchema handler) -/

/-- A decoded tool-call request: `request.params.name` and
`request.params.arguments` (which may be absent). -/
structure CallRequest where
  name : String
  arguments : Option ArgBag

/-- Backend interactions visible at the dispatcher boundary:
a connection-factory acquisition and the invocation of a tool handler. -/
inductive DispatchEvent where
  | connectAttempt : DispatchEvent
  | invoke : String → DispatchEvent
deriving DecidableEq, Repr

/-- The dispatcher environment: the external connection factory
`createSalesforceConnection` (which may throw) and the registered tool
handlers, abstracted as one fallible function from tool name and
argument bag to an envelope (the individual handler bodies live outside
the dispatcher and are not part of this boundary). -/
structure Env where
  connect : Except String Unit
  runTool : String → ArgBag → Except String ToolResult

/-- The envelope returned by the default case of the tool switch. -/
def unknownToolResult (name : String) : ToolResult :=
  { content := [ContentBlock.text ("Unknown tool: " ++ name)], isError := true }

/-- The `objects.every(obj => obj.name && Array.isArray(obj.fields))`
check of the salesforce_search_all case. -/
def searchAllObjectsOk (objs : List JsVal) : Bool :=
  objs.all fun o => truthyOpt (objField o "name") && isArrOpt (objField o "fields")

/-- The registered tool names, in the order of the switch cases. -/
def knownToolNames : List String :=
  ["salesforce_search_objects", "salesforce_describe_object",
   "salesforce_query_records", "salesforce_aggregate_query",
   "salesforce_dml_records", "salesforce_manage_object",
   "salesforce_manage_field", "salesforce_manage_field_permissions",
   "salesforce_search_all", "salesforce_read_apex",
   "salesforce_write_apex", "salesforce_read_apex_trigger",
   "salesforce_write_apex_trigger", "salesforce_execute_anonymous",
   "salesforce_manage_debug_logs"]

/-- The switch over the tool name (after the connection has been
acquired): each case performs the argument checks of the source and then
invokes the handler; a thrown check failure is an `Except.error`; the
default case returns the unknown-tool envelope.  The second component
records whether a handler was invoked. -/
def runCase (env : Env) (name : String) (args : ArgBag) :
    Except String ToolResult × List DispatchEvent :=
  if name = "salesforce_search_objects" then
    if truthyOpt (getArg args "searchPattern") then
      (env.runTool name args, [DispatchEvent.invoke name])
    else (Except.error "searchPattern is required", [])
  else if name = "salesforce_describe_object" then
    if truthyOpt (getArg args "objectName") then
      (env.runTool name args, [DispatchEvent.invoke name])
    else (Except.error "objectName is required", [])
  else if name = "salesforce_query_records" then
    if truthyOpt (getArg args "objectName") && isArrOpt (getArg args "fields") then
      (env.runTool name args, [DispatchEvent.invoke name])
    else (Except.error "objectName and fields array are required for query", [])
  else if name = "salesforce_aggregate_query" then
    if truthyOpt (getArg args "objectName") && isArrOpt (getArg args "selectFields")
        && isArrOpt (getArg args "groupByFields") then
      (env.runTool name args, [DispatchEvent.invoke name])
    else (Except.error "objectName, selectFields array, and groupByFields array are required for aggregate query", [])
  else if name = "salesforce_dml_records" then
    if truthyOpt (getArg args "operation") && truthyOpt (getArg args "objectName")
        && isArrOpt (getArg args "records") then
      (env.runTool name args, [DispatchEvent.invoke name])
    else (Except.error "operation, objectName, and records array are required for DML", [])
  else if name = "salesforce_manage_object" then
    if truthyOpt (getArg args "operation") && truthyOpt (getArg args "objectName") then
      (env.runTool name args, [DispatchEvent.invoke name])
    else (Except.error "operation and objectName are required for object management", [])
  else if name = "salesforce_manage_field" then
    if truthyOpt (getArg args "operation") && truthyOpt (getArg args "objectName")
        && truthyOpt (getArg args "fieldName") then
      (env.runTool name args, [DispatchEvent.invoke name])
    else (Except.error "operation, objectName, and fieldName are required for field management", [])
  else if name = "salesforce_manage_field_permissions" then
    if truthyOpt (getArg args "operation") && truthyOpt (getArg args "objectName")
        && truthyOpt (getArg args "fieldName") then
      (env.runTool name args, [DispatchEvent.invoke name])
    else (Except.error "operation, objectName, and fieldName are required for field permissions management", [])
  else if name = "salesforce_search_all" then
    if truthyOpt (getArg args "searchTerm") && isArrOpt (getArg args "objects") then
      if searchAllObjectsOk (arrOf (getArg args "objects")) then
        (env.runTool name args, [DispatchEvent.invoke name])
      else (Except.error "Each object must specify name and fields array", [])
    else (Except.error "searchTerm and objects array are required for search", [])
  else if name = "salesforce_read_apex" then
    (env.runTool name args, [DispatchEvent.invoke name])
  else if name = "salesforce_write_apex" then
    if truthyOpt (getArg args "operation") && truthyOpt (getArg args "className")
        && truthyOpt (getArg args "body") then
      (env.runTool name args, [DispatchEvent.invoke name])
    else (Except.error "operation, className, and body are required for writing Apex", [])
  else if name = "salesforce_read_apex_trigger" then
    (env.runTool name args, [DispatchEvent.invoke name])
  else if name = "salesforce_write_apex_trigger" then
    if truthyOpt (getArg args "operation") && truthyOpt (getArg args "triggerName")
        && truthyOpt (getArg args "body") then
      (env.runTool name args, [DispatchEvent.invoke name])
    else (Except.error "operation, triggerName, and body are required for writing Apex trigger", [])
  else if name = "salesforce_execute_anonymous" then
    if truthyOpt (getArg args "apexCode") then
      (env.runTool name args, [DispatchEvent.invoke name])
    else (Except.error "apexCode is required for executing anonymous Apex", [])
  else if name = "salesforce_manage_debug_logs" then
    if truthyOpt (getArg args "operation") && truthyOpt (getArg args "username") then
      (env.runTool name args, [DispatchEvent.invoke name])
    else (Except.error "operation and username are required for managing debug logs", [])
  else
    (Except.ok (unknownToolResult name), [])

/-- The body of the try block of the CallTool handler, with its trace of
backend interactions: the arguments-present check, then connection
acquisition, then the tool switch. -/
def dispatchBodyT (env : Env) (req : CallRequest) :
    Except String ToolResult × List DispatchEvent :=
  match req.arguments with
  | none => (Except.error "Arguments are required", [])
  | some args =>
    match env.connect with
    | Except.error m => (Except.error m, [DispatchEvent.connectAttempt])
    | Except.ok _ =>
      let r := runCase env req.name args
      (r.1, DispatchEvent.connectAttempt :: r.2)

/-- The try-block body without the trace. -/
def dispatchBody (env : Env) (req : CallRequest) : Except String ToolResult :=
  (dispatchBodyT env req).1

/-- The trace of backend interactions of one dispatch. -/
def dispatchTrace (env : Env) (req : CallRequest) : List DispatchEvent :=
  (dispatchBodyT env req).2

/-- The complete CallTool handler: the catch clause turns any thrown
error into a text envelope with `isError = true`. -/
def dispatch (env : Env) (req : CallRequest) : ToolResult :=
  match dispatchBody env req with
  | Except.ok r => r
  | Except.error m =>
    { content := [ContentBlock.text ("Error: " ++ m)], isError := true }

/-! ## search-fetch.ts: shared definitions

The repository ships src/tools/search-fetch.ts in two variants in one
file; `validateRecordId`, `getObjectTypeFromId`, `getDefaultFields`, the
SEARCH tool declaration and `handleSearch` are textually identical in
both, so they are defined once here; the parts that differ live in the
namespaces `V1` and `V2` below. -/

/-- A backend Salesforce record, restricted to the fields the handlers
read: `record.Id`, `record.Name` (possibly absent) and
`record.attributes?.type` (possibly absent). -/
structure Rec where
  id : String
  name : Option String
  attrType : Option String
deriving DecidableEq, Repr

/-- One per-object group of a SOSL search result. -/
structure SObjectResult where
  records : List Rec
deriving DecidableEq, Repr

/-- The result of a SOQL query. -/
structure QueryResult where
  records : List Rec
deriving DecidableEq, Repr

/-- The external Salesforce connection, at the interface the handlers
consume: `conn.search(sosl)` and `conn.query(soql)`, each of which may
throw. -/
structure SfConn where
  search : String → Except String (List SObjectResult)
  query : String → Except String QueryResult

/-- A backend call made by a search-fetch handler, with the exact query
text sent. -/
inductive SfEvent where
  | search : String → SfEvent
  | query : String → SfEvent
deriving DecidableEq, Repr

/-- JavaScript whitespace for the purposes of String.prototype.trim,
restricted to the ASCII whitespace the gateway can meet. -/
def isJsWhitespace (c : Char) : Bool :=
  c = ' ' || c = '\t' || c = '\n' || c = '\r'

/-- JavaScript `s.trim()`: strips leading and trailing whitespace. -/
def jsTrim (s : String) : String :=
  String.mk (((s.data.dropWhile isJsWhitespace).reverse.dropWhile isJsWhitespace).reverse)

/-- JavaScript `s.length` (all strings here are ASCII, so code-unit
length and character count agree). -/
def strLen (s : String) : Nat := s.data.length

/-- One character of the regex class `[a-zA-Z0-9]`. -/
def isAlnumCh (c : Char) : Bool :=
  ('a' ≤ c && c ≤ 'z') || ('A' ≤ c && c ≤ 'Z') || ('0' ≤ c && c ≤ '9')

/-- The regex test `/^[a-zA-Z0-9]+$/.test s` for non-empty `s`. -/
def strAllAlnum (s : String) : Bool := s.data.all isAlnumCh

/-- JavaScript `s.substring(0, n)`. -/
def strTake (s : String) (n : Nat) : String := String.mk (s.data.take n)

/-- JSON string escaping as performed by JSON.stringify on the string
values the handlers serialize (quote and backslash). -/
def jsEscape (s : String) : String :=
  String.mk
    (s.data.flatMap fun c =>
      if c = '\\' then ['\\', '\\'] else if c = '"' then ['\\', '"'] else [c])

/-- A JSON string literal for `s`. -/
def jsStr (s : String) : String := "\"" ++ jsEscape s ++ "\""

/-- `record.Name || d`: JavaScript or-else on the Name field (an empty
string is falsy). -/
def nameOr (record : Rec) (d : String) : String :=
  match record.name with
  | some n => if n = "" then d else n
  | none => d

/-- String interpolation of `record.attributes?.type` (an absent value
prints as "undefined"). -/
def attrTypeStr (record : Rec) : String :=
  match record.attrType with
  | some t => t
  | none => "undefined"

/-- `record.attributes?.type || d` (an empty string is falsy). -/
def attrTypeOr (record : Rec) (d : String) : String :=
  match record.attrType with
  | some t => if t = "" then d else t
  | none => d

/-- JSON.stringify of a backend record, as a function of the fields the
embedding tracks (attributes.type, Id, Name). -/
def recJson (record : Rec) : String :=
  "\x7b" ++
  (match record.attrType with
   | some t => "\"attributes\":\x7b\"type\":" ++ jsStr t ++ "\x7d,"
   | none => "") ++
  "\"Id\":" ++ jsStr record.id ++
  (match record.name with
   | some n => ",\"Name\":" ++ jsStr n
   | none => "") ++
  "\x7d"

/-- The isValid/error structure returned by validateRecordId. -/
structure IdValidation where
  isValid : Bool
  error : Option String
deriving DecidableEq, Repr

/-- Validates Salesforce record ID format: non-empty, 15 or 18
characters after trimming, alphanumeric only (the source regex is
`[a-zA-Z0-9]+` anchored at both ends). -/
def validateRecordId (recordId : String) : IdValidation :=
  if recordId = "" then
    { isValid := false, error := some "Record ID is required and must be a string" }
  else
    let r := jsTrim recordId
    if !(strLen r = 15) && !(strLen r = 18) then
      { isValid := false, error := some "Record ID must be either 15 or 18 characters long" }
    else if !(strAllAlnum r) then
      { isValid := false,
        error := some "Record ID contains invalid characters. Only alphanumeric characters are allowed" }
    else
      { isValid := true, error := none }

/-- Association lookup on a list of string pairs (the prefix map). -/
def strLookup : List (String × String) → String → Option String
  | [], _ => none
  | (k, v) :: rest, key => if k = key then some v else strLookup rest key

/-- The 3-character prefix map of getObjectTypeFromId. -/
def prefixMap : List (String × String) :=
  [("001", "Account"), ("003", "Contact"), ("00Q", "Lead"),
   ("006", "Opportunity"), ("500", "Case"), ("00T", "Task"),
   ("00U", "Event"), ("005", "User"), ("00G", "Group"),
   ("01Z", "Dashboard"), ("00O", "Report")]

/-- Gets the object type from a record ID: a pure lookup of the first
three characters in `prefixMap`, defaulting to "Unknown". -/
def getObjectTypeFromId (recordId : String) : String :=
  let pfx := strTake recordId 3
  (strLookup prefixMap pfx).getD "Unknown"

/-- The base fields of getDefaultFields. -/
def baseFields : List String := ["Id", "Name"]

/-- The system fields of getDefaultFields. -/
def systemFields : List String :=
  ["CreatedDate", "LastModifiedDate", "CreatedById", "LastModifiedById"]

/-- The objectSpecificFields table of getDefaultFields (an absent key
contributes nothing). -/
def objectSpecificFields (objectType : String) : List String :=
  if objectType = "Account" then ["Industry", "Phone", "Website", "BillingCity"]
  else if objectType = "Contact" then ["Email", "Phone", "Account.Name", "Title"]
  else if objectType = "Lead" then ["Email", "Phone", "Company", "Status"]
  else if objectType = "Opportunity" then ["Account.Name", "StageName", "Amount", "CloseDate"]
  else if objectType = "Case" then ["Subject", "Status", "Priority", "Contact.Name"]
  else if objectType = "User" then ["Email", "Username", "Profile.Name", "IsActive"]
  else []

/-- Gets default fields based on object type: base fields, then
object-specific fields, then (optionally) system fields. -/
def getDefaultFields (objectType : String) (includeSystemFields : Bool) : List String :=
  baseFields ++ objectSpecificFields objectType ++
    (if includeSystemFields then systemFields else [])

/-- The objects both handlers search over (a local constant in the
source). -/
def searchObjects : List String := ["Account", "Contact", "Lead", "Opportunity"]

/-- The fields both handlers request per object (a local constant in
the source). -/
def searchFields : List String := ["Id", "Name"]

/-- The per-object RETURNING clauses, `Account(Id, Name)` etc. -/
def returningClauses : String :=
  String.intercalate ", "
    (searchObjects.map fun obj =>
      obj ++ "(" ++ String.intercalate ", " searchFields ++ ")")

/-- The SOSL query built by handleSearch for a search term. -/
def buildSearchSosl (searchTerm : String) : String :=
  "FIND \x7b" ++ searchTerm ++ "*\x7d IN ALL FIELDS RETURNING " ++
    returningClauses ++ " LIMIT 200"

/-- The SOSL query built by the non-identifier branch of V1.handleFetch. -/
def buildFetchSosl (query : String) : String :=
  "FIND \x7b" ++ query ++ "*\x7d IN ALL FIELDS RETURNING " ++
    returningClauses ++ " LIMIT 5"

/-- The SOQL record query `SELECT fields FROM objectType WHERE Id =
'recordId'` built by the fetch handlers. -/
def soqlSelect (fields : List String) (objectType : String) (recordId : String) : String :=
  "SELECT " ++ String.intercalate ", " fields ++ " FROM " ++ objectType ++
    " WHERE Id = \x27" ++ recordId ++ "\x27"

/-- A formatted search result entry. -/
structure SearchResult where
  id : String
  title : String
  text : String
  url : String
deriving DecidableEq, Repr

/-- The metadata of a fetched document. -/
structure DocMeta where
  type : String
  url : String
deriving DecidableEq, Repr

/-- A fetched document entry. -/
structure Document where
  id : String
  title : String
  content : String
  metadata : DocMeta
deriving DecidableEq, Repr

/-- Formats one backend record as a SearchResult, as handleSearch does. -/
def mkSearchResult (record : Rec) : SearchResult :=
  { id := record.id
    title := nameOr record (attrTypeStr record ++ " Record")
    text := attrTypeStr record ++ ": " ++ nameOr record record.id
    url := "salesforce://record/" ++ record.id }

/-- Formats one fully fetched record as a Document, as the fetch
handlers do. -/
def mkDoc (objectType : String) (record : Rec) : Document :=
  { id := record.id
    title := nameOr record (objectType ++ " Record")
    content := recJson record
    metadata := { type := objectType, url := "salesforce://record/" ++ record.id } }

/-- JSON.stringify of one SearchResult. -/
def searchResultJson (r : SearchResult) : String :=
  "\x7b\"id\":" ++ jsStr r.id ++ ",\"title\":" ++ jsStr r.title ++
    ",\"text\":" ++ jsStr r.text ++ ",\"url\":" ++ jsStr r.url ++ "\x7d"

/-- JSON.stringify of one Document. -/
def docJson (d : Document) : String :=
  "\x7b\"id\":" ++ jsStr d.id ++ ",\"title\":" ++ jsStr d.title ++
    ",\"content\":" ++ jsStr d.content ++ ",\"metadata\":\x7b\"type\":" ++
    jsStr d.metadata.type ++ ",\"url\":" ++ jsStr d.metadata.url ++ "\x7d\x7d"

/-- The success envelope of handleSearch: `{results: [...]}` as text,
`isError = false`. -/
def searchOkEnvelope (results : List SearchResult) : ToolResult :=
  { content := [ContentBlock.text
      ("\x7b\"results\":[" ++ String.intercalate "," (results.map searchResultJson) ++ "]\x7d")]
    isError := false }

/-- The catch envelope of handleSearch: `{results: [], error: msg}` as
text, `isError = true`. -/
def searchErrEnvelope (msg : String) : ToolResult :=
  { content := [ContentBlock.text
      ("\x7b\"results\":[],\"error\":" ++ jsStr msg ++ "\x7d")]
    isError := true }

/-- The success envelope of the fetch handlers: `{documents: [...]}` as
text, `isError = false`. -/
def docsEnvelope (docs : List Document) : ToolResult :=
  { content := [ContentBlock.text
      ("\x7b\"documents\":[" ++ String.intercalate "," (docs.map docJson) ++ "]\x7d")]
    isError := false }

/-- The error envelope of the fetch handlers: `{documents: [], error:
msg}` as text, `isError = true`. -/
def fetchErrEnvelope (msg : String) : ToolResult :=
  { content := [ContentBlock.text
      ("\x7b\"documents\":[],\"error\":" ++ jsStr msg ++ "\x7d")]
    isError := true }

/-- The arguments of the search tool (both variants): one string field
`query`. -/
structure SearchArgs where
  query : String

/-- Handles document search using keywords, instrumented with the list
of backend calls made.  Identical in both variants of the source file. -/
def handleSearch (conn : SfConn) (args : SearchArgs) : ToolResult × List SfEvent :=
  let soslQuery := buildSearchSosl args.query
  match conn.search soslQuery with
  | Except.error e => (searchErrEnvelope e, [SfEvent.search soslQuery])
  | Except.ok searchResults =>
    let results :=
      searchResults.flatMap fun objectResult => objectResult.records.map mkSearchResult
    (searchOkEnvelope results, [SfEvent.search soslQuery])

/-! ## Declared tool schemas (C6) -/

/-- A primitive property type of a declared input schema. -/
inductive PropType where
  | string : PropType
  | number : PropType
  | boolean : PropType
  | arrayString : PropType
deriving DecidableEq, Repr

/-- A declared input schema: named properties with their types, the
required-property names, and the additionalProperties flag. -/
structure InputSchema where
  properties : List (String × PropType)
  required : List String
  additionalProperties : Bool
deriving DecidableEq, Repr

/-- A tool declaration of the registry. -/
structure ToolDecl where
  name : String
  inputSchema : InputSchema
deriving DecidableEq, Repr

/-- The SEARCH tool declaration (identical in both variants): one
required string property `query`, no others, additionalProperties
false. -/
def SEARCH : ToolDecl :=
  { name := "search"
    inputSchema :=
      { properties := [("query", PropType.string)]
        required := ["query"]
        additionalProperties := false } }

namespace V1

/-- The FETCH tool declaration of the first variant: one required
string property `query`, additionalProperties false. -/
def FETCH : ToolDecl :=
  { name := "fetch"
    inputSchema :=
      { properties := [("query", PropType.string)]
        required := ["query"]
        additionalProperties := false } }

/-- The arguments of the first-variant fetch tool. -/
structure FetchArgs where
  query : String

/-- The per-record step of the non-identifier branch of handleFetch:
resolve the object type from `record.attributes?.type`, build the
detail SOQL, query, push the document when a record comes back, and
swallow (only log) a per-record error. -/
def fetchDetailStep (conn : SfConn) (acc : List Document × List SfEvent)
    (record : Rec) : List Document × List SfEvent :=
  let objectType := attrTypeOr record "Unknown"
  let soql := soqlSelect (getDefaultFields objectType false) objectType record.id
  match conn.query soql with
  | Except.ok result =>
    match result.records with
    | [] => (acc.1, acc.2 ++ [SfEvent.query soql])
    | fullRecord :: _ =>
      (acc.1 ++ [mkDoc objectType fullRecord], acc.2 ++ [SfEvent.query soql])
  | Except.error _ => (acc.1, acc.2 ++ [SfEvent.query soql])

/-- Handles fetching content for one query (first variant), instrumented
with the list of backend calls made.  A query shaped like a record ID
(15 or 18 characters, alphanumeric) is fetched directly; any other query
runs a SOSL search and fetches details of the first 2 records per
object; per-record query errors are only logged. -/
def handleFetch (conn : SfConn) (args : FetchArgs) : ToolResult × List SfEvent :=
  let query := args.query
  if query = "" || jsTrim query = "" then
    (fetchErrEnvelope "No query provided", [])
  else
    let possibleId := jsTrim query
    if strLen possibleId = 15 || strLen possibleId = 18 then
      if (validateRecordId possibleId).isValid then
        let objectType := getObjectTypeFromId possibleId
        let fieldsToFetch := getDefaultFields objectType false
        let soql := soqlSelect fieldsToFetch objectType possibleId
        match conn.query soql with
        | Except.ok result =>
          match result.records with
          | [] => (docsEnvelope [], [SfEvent.query soql])
          | record :: _ => (docsEnvelope [mkDoc objectType record], [SfEvent.query soql])
        | Except.error _ => (docsEnvelope [], [SfEvent.query soql])
      else
        (docsEnvelope [], [])
    else
      let soslQuery := buildFetchSosl query
      match conn.search soslQuery with
      | Except.error e => (fetchErrEnvelope e, [SfEvent.search soslQuery])
      | Except.ok searchResults =>
        let recs :=
          searchResults.flatMap fun objectResult => objectResult.records.take 2
        let folded := recs.foldl (fetchDetailStep conn) ([], [])
        (docsEnvelope folded.1, SfEvent.search soslQuery :: folded.2)

end V1

namespace V2

/-- The FETCH tool declaration of the second variant: one required
property `objectIds` of type array-of-string, additionalProperties
false. -/
def FETCH : ToolDecl :=
  { name := "fetch"
    inputSchema :=
      { properties := [("objectIds", PropType.arrayString)]
        required := ["objectIds"]
        additionalProperties := false } }

/-- The arguments of the second-variant fetch tool. -/
structure FetchArgs where
  objectIds : List String

/-- The per-identifier step of handleFetch: trim the ID, resolve the
object type from the prefix map, build and run the SOQL, push the
document when a record comes back, and swallow (only log) a per-record
error. -/
def fetchIdStep (conn : SfConn) (acc : List Document × List SfEvent)
    (recordId : String) : List Document × List SfEvent :=
  let cleanRecordId := jsTrim recordId
  let objectType := getObjectTypeFromId cleanRecordId
  let soql := soqlSelect (getDefaultFields objectType false) objectType cleanRecordId
  match conn.query soql with
  | Except.ok result =>
    match result.records with
    | [] => (acc.1, acc.2 ++ [SfEvent.query soql])
    | record :: _ =>
      (acc.1 ++ [mkDoc objectType record], acc.2 ++ [SfEvent.query soql])
  | Except.error _ => (acc.1, acc.2 ++ [SfEvent.query soql])

/-- Handles fetching content for a list of object IDs (second variant),
instrumented with the list of backend calls made. -/
def handleFetch (conn : SfConn) (args : FetchArgs) : ToolResult × List SfEvent :=
  if args.objectIds.isEmpty then
    (fetchErrEnvelope "No object IDs provided", [])
  else
    let folded := args.objectIds.foldl (fetchIdStep conn) ([], [])
    (docsEnvelope folded.1, folded.2)

end V2

/-! ## HTTP transport surface (src/index.ts, express app) -/

/-- An HTTP method of the routes the app registers. -/
inductive Method where
  | get : Method
  | post : Method
  | delete : Method
deriving DecidableEq, Repr, BEq

/-- An inbound HTTP request: method, path, and the value of the
mcp-session-id header if present. -/
structure HttpRequest where
  method : Method
  path : String
  sessionIdHeader : Option String

/-- The responses the registered handlers can produce. -/
inductive HttpResponse where
  | methodNotAllowed405 : String → HttpResponse
  | badRequest400 : String → HttpResponse
  | mcpHandled : HttpResponse
  | sessionHandled : String → HttpResponse
  | notFound404 : HttpResponse
deriving DecidableEq, Repr

/-- The server state: the module-level `transports` map from session ID
to transport (transport handles are opaque). -/
structure ServerState where
  transports : List (String × Nat)

/-- An express route handler. -/
abbrev Handler := HttpRequest → ServerState → HttpResponse × ServerState

/-- The body of the 405 responses of the GET /mcp and DELETE /mcp
handlers. -/
def methodNotAllowedBody : String :=
  "\x7b\"jsonrpc\":\"2.0\",\"error\":\x7b\"code\":-32000,\"message\":\"Method not allowed.\"\x7d,\"id\":null\x7d"

/-- The POST /mcp handler: stateless mode creates a fresh transport and
server handle per request and never registers anything in the
`transports` map; the state is unchanged. -/
def mcpPostHandler : Handler := fun _ s => (HttpResponse.mcpHandled, s)

/-- The first GET /mcp handler: SSE notifications are not supported in
stateless mode; always responds 405. -/
def mcpGet405Handler : Handler := fun _ s =>
  (HttpResponse.methodNotAllowed405 methodNotAllowedBody, s)

/-- The first DELETE /mcp handler: session termination is not needed in
stateless mode; always responds 405. -/
def mcpDelete405Handler : Handler := fun _ s =>
  (HttpResponse.methodNotAllowed405 methodNotAllowedBody, s)

/-- Association lookup on the transports map. -/
def transportsLookup : List (String × Nat) → String → Option Nat
  | [], _ => none
  | (k, v) :: rest, key => if k = key then some v else transportsLookup rest key

/-- The reusable session-keyed handler registered later for GET and
DELETE: 400 on a missing or unknown mcp-session-id header, otherwise it
forwards the request to the stored transport. -/
def handleSessionRequest : Handler := fun req s =>
  match req.sessionIdHeader with
  | none => (HttpResponse.badRequest400 "Invalid or missing session ID", s)
  | some sessionId =>
    match transportsLookup s.transports sessionId with
    | none => (HttpResponse.badRequest400 "Invalid or missing session ID", s)
    | some _ => (HttpResponse.sessionHandled sessionId, s)

/-- The routes in registration order: POST /mcp, then the two 405
handlers, then the two session-keyed handlers. -/
def routes : List (Method × String × Handler) :=
  [(Method.post, "/mcp", mcpPostHandler),
   (Method.get, "/mcp", mcpGet405Handler),
   (Method.delete, "/mcp", mcpDelete405Handler),
   (Method.get, "/mcp", handleSessionRequest),
   (Method.delete, "/mcp", handleSessionRequest)]

/-- Express routing: the first route whose method and path match
handles the request (each registered handler ends the response and
never calls the next handler); no match is a 404. -/
def dispatchHttp (req : HttpRequest) (s : ServerState) : HttpResponse × ServerState :=
  match routes.find? (fun r => r.1 == req.method && r.2.1 == req.path) with
  | some r => r.2.2 req s
  | none => (HttpResponse.notFound404, s)

/-- The SOQL text V2.handleFetch issues for one identifier of its list:
trim, resolve the object type from the prefix map, build the SELECT. -/
def fetchIdSoql (recordId : String) : String :=
  let cleanRecordId := jsTrim recordId
  let objectType := getObjectTypeFromId cleanRecordId
  soqlSelect (getDefaultFields objectType false) objectType cleanRecordId

/-- The document V2.handleFetch produces for one identifier of its
list: `some` of the formatted first record when the backend query
succeeds with at least one record, `none` when it returns zero records
or throws (the thrown error is only logged). -/
def successDocV2 (conn : SfConn) (recordId : String) : Option Document :=
  match conn.query (fetchIdSoql recordId) with
  | Except.ok { records := record :: _ } =>
    some (mkDoc (getObjectTypeFromId (jsTrim recordId)) record)
  | _ => none

/-! ## Concrete fixtures shared by witnesses and counterexamples -/

/-- A fixed success envelope returned by the abstract handlers of the
test environments. -/
def okEnvelope : ToolResult :=
  { content := [ContentBlock.text "ok"], isError := false }

/-- A dispatcher environment whose connection factory succeeds. -/
def envOk : Env :=
  { connect := Except.ok (), runTool := fun _ _ => Except.ok okEnvelope }

/-- A dispatcher environment whose connection factory throws. -/
def envNoConn : Env :=
  { connect := Except.error "Connection failed",
    runTool := fun _ _ => Except.ok okEnvelope }

/-- A backend connection on which every search and every query succeeds
with zero records. -/
def connEmpty : SfConn :=
  { search := fun _ => Except.ok [], query := fun _ => Except.ok { records := [] } }

/-- A backend connection on which the record query for the identifier
003BBBBBBBBBBBBBBB throws and every other query returns one Account
record. -/
def connSecondFails : SfConn :=
  { search := fun _ => Except.ok []
    query := fun soql =>
      if soql = fetchIdSoql "003BBBBBBBBBBBBBBB" then
        Except.error "INVALID_FIELD"
      else
        Except.ok
          { records :=
              [{ id := "001AAAAAAAAAAAAAAA", name := some "Acme",
                 attrType := some "Account" }] } }

/-! ## C1 -/

/-- C1: for every incoming tool-call request the dispatcher produces
exactly one ToolResult envelope: `dispatch` is a total function into
`ToolResult`, so no exception can propagate past the boundary to the
transport; any error thrown by the try-block body (argument checking,
connection acquisition, or the backend call) yields the envelope whose
single content block is the text payload `Error: <message>` with
`isError = true`, and a successful body yields its envelope unchanged. -/
theorem dispatcher_boundary_converts_every_error (env : Env) (req : CallRequest) :
    (∀ m, dispatchBody env req = Except.error m →
      dispatch env req =
        { content := [ContentBlock.text ("Error: " ++ m)], isError := true }) ∧
    (∀ r, dispatchBody env req = Except.ok r → dispatch env req = r) := by
  constructor <;> intro x h <;> simp [dispatch, h]

/-- C1 witness: a request dispatched in an environment whose connection
factory throws receives the converted error envelope. -/
theorem dispatcher_boundary_converts_every_error_witness :
    dispatch envNoConn { name := "salesforce_query_records", arguments := some [] } =
      { content := [ContentBlock.text ("Error: " ++ "Connection failed")], isError := true } :=
  (dispatcher_boundary_converts_every_error envNoConn
    { name := "salesforce_query_records", arguments := some [] }).1
    "Connection failed" rfl

/-! ## C2 -/

/-- C2 counterexample: dispatching an unregistered tool name with a
succeeding connection factory does return the unknown-tool envelope,
but the dispatch trace contains a connection-factory acquisition — the
source acquires the backend connection before the tool-name switch —
and with a failing connection factory the result is the connection
error envelope, not the unknown-tool envelope.  This refutes the
claimed "without attempting to acquire a backend connection". -/
theorem unknown_tool_connects_counterexample :
    dispatch envOk { name := "nonexistent_tool", arguments := some [] } =
      unknownToolResult "nonexistent_tool" ∧
    dispatchTrace envOk { name := "nonexistent_tool", arguments := some [] } =
      [DispatchEvent.connectAttempt] ∧
    dispatch envNoConn { name := "nonexistent_tool", arguments := some [] } =
      { content := [ContentBlock.text "Error: Connection failed"], isError := true } := by
  decide

/-- Helper: an unregistered tool name takes the default branch of the
switch. -/
theorem runCase_unknown (env : Env) (name : String) (args : ArgBag)
    (h : name ∉ knownToolNames) :
    runCase env name args = (Except.ok (unknownToolResult name), []) := by
  simp only [knownToolNames, List.mem_cons, List.not_mem_nil, or_false, not_or] at h
  obtain ⟨h1, h2, h3, h4, h5, h6, h7, h8, h9, h10, h11, h12, h13, h14, h15⟩ := h
  simp [runCase, h1, h2, h3, h4, h5, h6, h7, h8, h9, h10, h11, h12, h13, h14, h15]

/-- C2 amended: a tool-call request whose name is not in the registry
and whose arguments are present yields the Failed envelope with the
"unknown tool" payload and `isError = true`, but only after a backend
connection acquisition has been attempted: the acquisition precedes the
name dispatch, and if it fails the connection error envelope is
returned instead of the unknown-tool envelope. -/
theorem unknown_tool_failed_after_connection (env : Env) (req : CallRequest)
    (args : ArgBag) (hargs : req.arguments = some args)
    (hname : req.name ∉ knownToolNames) :
    DispatchEvent.connectAttempt ∈ dispatchTrace env req ∧
    (env.connect = Except.ok () → dispatch env req = unknownToolResult req.name) ∧
    (∀ m, env.connect = Except.error m →
      dispatch env req =
        { content := [ContentBlock.text ("Error: " ++ m)], isError := true }) := by
  refine ⟨?_, ?_, ?_⟩
  · simp only [dispatchTrace, dispatchBodyT, hargs]
    rcases h : env.connect with m | u <;> simp [h]
  · intro hc
    simp [dispatch, dispatchBody, dispatchBodyT, hargs, hc,
      runCase_unknown env req.name args hname]
  · intro m hc
    simp [dispatch, dispatchBody, dispatchBodyT, hargs, hc]

/-- C2 witness: the amended statement at the unregistered name
"nonexistent_tool" with present (empty) arguments. -/
theorem unknown_tool_failed_after_connection_witness :
    DispatchEvent.connectAttempt ∈
      dispatchTrace envOk { name := "nonexistent_tool", arguments := some [] } ∧
    (envOk.connect = Except.ok () →
      dispatch envOk { name := "nonexistent_tool", arguments := some [] } =
        unknownToolResult "nonexistent_tool") ∧
    (∀ m, envOk.connect = Except.error m →
      dispatch envOk { name := "nonexistent_tool", arguments := some [] } =
        { content := [ContentBlock.text ("Error: " ++ m)], isError := true }) :=
  unknown_tool_failed_after_connection envOk
    { name := "nonexistent_tool", arguments := some [] } [] rfl (by decide)

/-! ## C3 -/

/-- C3 counterexample: a salesforce_query_records call whose arguments
omit objectName does produce the validation-error envelope with
`isError = true`, but its dispatch trace contains a connection-factory
acquisition: the source acquires the backend connection before any
argument validation, refuting "the validation failure occurs before any
backend connection is acquired". -/
theorem query_records_missing_objectName_connects_counterexample :
    dispatch envOk
        { name := "salesforce_query_records",
          arguments := some [("fields", JsVal.arr [])] } =
      { content :=
          [ContentBlock.text "Error: objectName and fields array are required for query"],
        isError := true } ∧
    dispatchTrace envOk
        { name := "salesforce_query_records",
          arguments := some [("fields", JsVal.arr [])] } =
      [DispatchEvent.connectAttempt] := by
  decide

/-- Helper: the salesforce_query_records case throws its validation
error when objectName is absent. -/
theorem runCase_query_records_missing (env : Env) (args : ArgBag)
    (h : getArg args "objectName" = none) :
    runCase env "salesforce_query_records" args =
      (Except.error "objectName and fields array are required for query", []) := by
  simp [runCase, h, truthyOpt]

/-- C3 amended: a salesforce_query_records call whose arguments omit
objectName yields the validation-error envelope with `isError = true`
and the handler is never invoked (so no backend operation is issued by
it), but the backend connection is acquired first: the complete dispatch
trace is exactly one connection acquisition. -/
theorem query_records_missing_objectName_after_connection (env : Env) (args : ArgBag)
    (h : getArg args "objectName" = none) (hc : env.connect = Except.ok ()) :
    dispatch env { name := "salesforce_query_records", arguments := some args } =
      { content :=
          [ContentBlock.text "Error: objectName and fields array are required for query"],
        isError := true } ∧
    dispatchTrace env { name := "salesforce_query_records", arguments := some args } =
      [DispatchEvent.connectAttempt] := by
  have hrc := runCase_query_records_missing env args h
  constructor <;>
    simp [dispatch, dispatchBody, dispatchTrace, dispatchBodyT, hc, hrc]

/-- C3 witness: the amended statement at an argument bag holding only a
fields array. -/
theorem query_records_missing_objectName_after_connection_witness :
    dispatch envOk
        { name := "salesforce_query_records",
          arguments := some [("fields", JsVal.arr [])] } =
      { content :=
          [ContentBlock.text "Error: objectName and fields array are required for query"],
        isError := true } ∧
    dispatchTrace envOk
        { name := "salesforce_query_records",
          arguments := some [("fields", JsVal.arr [])] } =
      [DispatchEvent.connectAttempt] :=
  query_records_missing_objectName_after_connection envOk
    [("fields", JsVal.arr [])] rfl rfl

/-! ## C4 -/

/-- C4 counterexample: the search handler invoked with the term "Acme"
does not send the claimed single-object query: the query text it builds
and sends is not `FIND {Acme*} IN ALL FIELDS RETURNING Account(Id,
Name)` (the tool accepts only a `query` argument, searches four
hard-coded objects, and appends a LIMIT clause). -/
theorem search_acme_claimed_query_counterexample :
    (handleSearch connEmpty { query := "Acme" }).2 ≠
      [SfEvent.search "FIND \x7bAcme*\x7d IN ALL FIELDS RETURNING Account(Id, Name)"] := by
  decide

/-- C4 amended: for every backend connection, the search handler
invoked with query "Acme" sends exactly one backend search whose query
text is `FIND {Acme*} IN ALL FIELDS RETURNING Account(Id, Name),
Contact(Id, Name), Lead(Id, Name), Opportunity(Id, Name) LIMIT 200`. -/
theorem search_acme_sends_four_object_query (conn : SfConn) :
    (handleSearch conn { query := "Acme" }).2 =
      [SfEvent.search "FIND \x7bAcme*\x7d IN ALL FIELDS RETURNING Account(Id, Name), Contact(Id, Name), Lead(Id, Name), Opportunity(Id, Name) LIMIT 200"] := by
  have hb : buildSearchSosl "Acme" =
      "FIND \x7bAcme*\x7d IN ALL FIELDS RETURNING Account(Id, Name), Contact(Id, Name), Lead(Id, Name), Opportunity(Id, Name) LIMIT 200" := by
    decide
  simp only [handleSearch]
  rcases h : conn.search (buildSearchSosl "Acme") with e | rs <;> simp [h, hb]

/-! ## C5 -/

/-- C5 counterexample: fetching the 18-character identifier
999AAAAAAAAAAAAAAA, whose 3-character prefix 999 is not in the prefix
map, performs exactly one backend call — the record query itself,
issued against object type Unknown — so no backend type-lookup call
happens before the record query is built and executed. -/
theorem fetch_unmapped_prefix_counterexample :
    (V1.handleFetch connEmpty { query := "999AAAAAAAAAAAAAAA" }).2 =
      [SfEvent.query "SELECT Id, Name FROM Unknown WHERE Id = \x27999AAAAAAAAAAAAAAA\x27"] := by
  decide

/-- C5 amended: for every 18-character alphanumeric identifier (given
without surrounding whitespace) whose 3-character prefix is not in the
prefix map, the object type is resolved purely in memory to "Unknown"
— no backend type-lookup call is made — and the handler directly
builds and executes the record query `SELECT Id, Name FROM Unknown
WHERE Id = '<id>'` as its only backend interaction. -/
theorem fetch_unmapped_prefix_no_backend_lookup (conn : SfConn) (id : String)
    (hid : jsTrim id = id) (h18 : strLen id = 18)
    (halnum : strAllAlnum id = true)
    (hpfx : strLookup prefixMap (strTake id 3) = none) :
    (V1.handleFetch conn { query := id }).2 =
      [SfEvent.query (soqlSelect ["Id", "Name"] "Unknown" id)] := by
  have hne : ¬(id = "") := by
    intro h
    rw [h] at h18
    exact absurd h18 (by decide)
  have hobj : getObjectTypeFromId id = "Unknown" := by
    simp [getObjectTypeFromId, hpfx]
  have hval : (validateRecordId id).isValid = true := by
    simp [validateRecordId, hne, hid, h18, halnum]
  have hfields : getDefaultFields "Unknown" false = ["Id", "Name"] := by decide
  simp only [V1.handleFetch, hid, h18]
  simp only [hne, decide_eq_true_eq, if_neg, decide_eq_false, Bool.or_self,
    Bool.false_or, if_false]
  simp [hne, hval, hobj, hfields]
  rcases h : conn.query (soqlSelect ["Id", "Name"] "Unknown" id) with e | ⟨recs⟩
  · simp [h]
  · rcases recs with _ | ⟨r, rs⟩ <;> simp [h]

/-- C5 witness: the amended statement at the identifier
999AAAAAAAAAAAAAAA on the empty backend. -/
theorem fetch_unmapped_prefix_no_backend_lookup_witness :
    (V1.handleFetch connEmpty { query := "999AAAAAAAAAAAAAAA" }).2 =
      [SfEvent.query (soqlSelect ["Id", "Name"] "Unknown" "999AAAAAAAAAAAAAAA")] :=
  fetch_unmapped_prefix_no_backend_lookup connEmpty "999AAAAAAAAAAAAAAA"
    (by decide) (by decide) (by decide) (by decide)

/-! ## C6 -/

/-- C6 counterexample: the declared schemas name neither a searchTerm
property on the search tool nor a recordId property on the fetch tool
(either variant); search does not require searchTerm. -/
theorem declared_schemas_counterexample :
    "searchTerm" ∉ SEARCH.inputSchema.properties.map Prod.fst ∧
    SEARCH.inputSchema.required ≠ ["searchTerm"] ∧
    "recordId" ∉ V1.FETCH.inputSchema.properties.map Prod.fst ∧
    "recordId" ∉ V2.FETCH.inputSchema.properties.map Prod.fst := by
  decide

/-- C6 amended: the registry declares for search exactly one property,
the required string `query`, with additionalProperties false; the
first-variant fetch declares exactly the required string `query`; the
second-variant fetch declares exactly the required string-array
`objectIds`; both with additionalProperties false. -/
theorem declared_schemas_query_and_objectIds :
    SEARCH.inputSchema.properties = [("query", PropType.string)] ∧
    SEARCH.inputSchema.required = ["query"] ∧
    SEARCH.inputSchema.additionalProperties = false ∧
    V1.FETCH.inputSchema.properties = [("query", PropType.string)] ∧
    V1.FETCH.inputSchema.required = ["query"] ∧
    V1.FETCH.inputSchema.additionalProperties = false ∧
    V2.FETCH.inputSchema.properties = [("objectIds", PropType.arrayString)] ∧
    V2.FETCH.inputSchema.required = ["objectIds"] ∧
    V2.FETCH.inputSchema.additionalProperties = false := by
  decide

/-! ## C7 -/

/-- C7: every field list used to build a record query is a
`getDefaultFields` result, and for every object type and system-field
flag that list contains each field exactly once (it is duplicate-free,
hence already in first-occurrence order) and the identifier field Id is
always present and first even though no caller requests it. -/
theorem default_fields_unique_id_first (objectType : String)
    (includeSystemFields : Bool) :
    (getDefaultFields objectType includeSystemFields).Nodup ∧
    (getDefaultFields objectType includeSystemFields).head? = some "Id" ∧
    "Id" ∈ getDefaultFields objectType includeSystemFields := by
  unfold getDefaultFields objectSpecificFields baseFields systemFields
  cases includeSystemFields <;> split_ifs <;> exact ⟨by decide, by decide, by decide⟩

/-! ## C8 and C9: the V2 fold characterization -/

/-- Helper: one step of the V2 fetch fold appends the per-identifier
success document (if any) and records the issued query. -/
theorem fetchIdStep_eq (conn : SfConn) (acc : List Document × List SfEvent)
    (recordId : String) :
    V2.fetchIdStep conn acc recordId =
      (acc.1 ++ (successDocV2 conn recordId).toList,
       acc.2 ++ [SfEvent.query (fetchIdSoql recordId)]) := by
  simp only [V2.fetchIdStep, successDocV2, fetchIdSoql]
  rcases h : conn.query
      (soqlSelect (getDefaultFields (getObjectTypeFromId (jsTrim recordId)) false)
        (getObjectTypeFromId (jsTrim recordId)) (jsTrim recordId)) with e | ⟨recs⟩
  · simp [h]
  · rcases recs with _ | ⟨r, rs⟩ <;> simp [h]

/-- Helper: the V2 fetch fold accumulates exactly the per-identifier
success documents, in identifier order. -/
theorem foldl_fetchIdStep (conn : SfConn) (ids : List String) :
    ∀ docs evs, (ids.foldl (V2.fetchIdStep conn) (docs, evs)).1 =
      docs ++ ids.filterMap (successDocV2 conn) := by
  induction ids with
  | nil => intro docs evs; simp
  | cons recordId rest ih =>
    intro docs evs
    rw [List.foldl_cons, fetchIdStep_eq, ih]
    rcases h : successDocV2 conn recordId with _ | d <;> simp [h]

/-! ## C8 -/

/-- C8: a fetch-by-identifier request whose backend query returns zero
matching records yields the Completed envelope — the empty documents
payload with `isError = false` — not an error envelope; this holds for
the single-identifier variant (given a well-formed 15- or 18-character
alphanumeric identifier) and for the identifier-list variant (given a
non-empty list all of whose queries return zero records). -/
theorem fetch_zero_records_completed :
    (∀ (conn : SfConn) (id : String), jsTrim id = id →
      strLen id = 15 ∨ strLen id = 18 → strAllAlnum id = true →
      conn.query (soqlSelect (getDefaultFields (getObjectTypeFromId id) false)
          (getObjectTypeFromId id) id) = Except.ok { records := [] } →
      (V1.handleFetch conn { query := id }).1 = docsEnvelope [] ∧
        ((V1.handleFetch conn { query := id }).1).isError = false) ∧
    (∀ (conn : SfConn) (ids : List String), ids ≠ [] →
      (∀ recordId ∈ ids,
        conn.query (fetchIdSoql recordId) = Except.ok { records := [] }) →
      (V2.handleFetch conn { objectIds := ids }).1 = docsEnvelope [] ∧
        ((V2.handleFetch conn { objectIds := ids }).1).isError = false) := by
  constructor
  · intro conn id hid hlen halnum hq
    have hne : ¬(id = "") := by
      intro h
      rw [h] at hlen
      rcases hlen with h15 | h18
      · exact absurd h15 (by decide)
      · exact absurd h18 (by decide)
    have hval : (validateRecordId id).isValid = true := by
      rcases hlen with h | h <;> simp [validateRecordId, hne, hid, h, halnum]
    have hcond : (strLen id = 15 || strLen id = 18) = true := by
      rcases hlen with h | h <;> simp [h]
    constructor <;>
      simp [V1.handleFetch, hid, hne, hcond, hval, hq, docsEnvelope]
  · intro conn ids hne hq
    have hempty : ids.isEmpty = false := by
      cases ids with
      | nil => exact absurd rfl hne
      | cons a l => rfl
    have hnone : ∀ recordId ∈ ids, successDocV2 conn recordId = none := by
      intro recordId hmem
      simp [successDocV2, hq recordId hmem]
    have hfm : ids.filterMap (successDocV2 conn) = [] :=
      List.filterMap_eq_nil_iff.mpr hnone
    constructor <;>
      simp [V2.handleFetch, hempty, foldl_fetchIdStep, hfm, docsEnvelope]

/-- C8 witness: both variants at concrete identifiers on the
zero-record backend. -/
theorem fetch_zero_records_completed_witness :
    ((V1.handleFetch connEmpty { query := "001AAAAAAAAAAAAAAA" }).1 = docsEnvelope [] ∧
      ((V1.handleFetch connEmpty { query := "001AAAAAAAAAAAAAAA" }).1).isError = false) ∧
    ((V2.handleFetch connEmpty { objectIds := ["001AAAAAAAAAAAAAAA"] }).1 = docsEnvelope [] ∧
      ((V2.handleFetch connEmpty { objectIds := ["001AAAAAAAAAAAAAAA"] }).1).isError = false) :=
  ⟨fetch_zero_records_completed.1 connEmpty "001AAAAAAAAAAAAAAA"
      (by decide) (Or.inr (by decide)) (by decide) rfl,
    fetch_zero_records_completed.2 connEmpty ["001AAAAAAAAAAAAAAA"]
      (by decide) (fun recordId _ => rfl)⟩

/-! ## C9 -/

/-- C9: in the identifier-list fetch handler, an identifier whose
backend query throws contributes no document (`successDocV2` is none
there, the error being only logged), and for every non-empty identifier
list the returned envelope is the Completed one — `isError = false` —
containing exactly the documents of the identifiers that succeeded, so
no per-record backend error is ever surfaced to the caller. -/
theorem fetch_list_per_record_errors_skipped (conn : SfConn) (ids : List String)
    (h : ids ≠ []) :
    (V2.handleFetch conn { objectIds := ids }).1 =
      docsEnvelope (ids.filterMap (successDocV2 conn)) ∧
    ((V2.handleFetch conn { objectIds := ids }).1).isError = false ∧
    (∀ recordId e, conn.query (fetchIdSoql recordId) = Except.error e →
      successDocV2 conn recordId = none) := by
  have hempty : ids.isEmpty = false := by
    cases ids with
    | nil => exact absurd rfl h
    | cons a l => rfl
  refine ⟨?_, ?_, ?_⟩
  · simp [V2.handleFetch, hempty, foldl_fetchIdStep]
  · simp [V2.handleFetch, hempty, docsEnvelope]
  · intro recordId e hq
    simp [successDocV2, hq]

/-- C9 witness: a two-identifier list where the backend query for the
second identifier throws yields a non-error envelope containing only
the first document. -/
theorem fetch_list_per_record_errors_skipped_witness :
    (V2.handleFetch connSecondFails
        { objectIds := ["001AAAAAAAAAAAAAAA", "003BBBBBBBBBBBBBBB"] }).1 =
      docsEnvelope
        (["001AAAAAAAAAAAAAAA", "003BBBBBBBBBBBBBBB"].filterMap
          (successDocV2 connSecondFails)) ∧
    ((V2.handleFetch connSecondFails
        { objectIds := ["001AAAAAAAAAAAAAAA", "003BBBBBBBBBBBBBBB"] }).1).isError =
      false ∧
    (∀ recordId e,
      connSecondFails.query (fetchIdSoql recordId) = Except.error e →
      successDocV2 connSecondFails recordId = none) :=
  fetch_list_per_record_errors_skipped connSecondFails
    ["001AAAAAAAAAAAAAAA", "003BBBBBBBBBBBBBBB"] (by decide)

/-! ## C10 -/

/-- C10: the transports session map is never written on any route — the
server state after handling any request is the state before — and
because the 405 routes for GET /mcp and DELETE /mcp are registered
before the session-lookup routes and express takes the first match,
every GET or DELETE to /mcp receives the 405 "Method not allowed."
response regardless of the mcp-session-id header, so the session-keyed
request handler is unreachable (no request ever produces its
response). -/
theorem http_get_delete_always_405 (s : ServerState) (req : HttpRequest) :
    ((req.method = Method.get ∨ req.method = Method.delete) → req.path = "/mcp" →
      dispatchHttp req s =
        (HttpResponse.methodNotAllowed405 methodNotAllowedBody, s)) ∧
    (dispatchHttp req s).2 = s ∧
    (∀ sessionId, (dispatchHttp req s).1 ≠ HttpResponse.sessionHandled sessionId) := by
  obtain ⟨m, p, hdr⟩ := req
  by_cases hp : p = "/mcp"
  · subst hp
    cases m
    · exact ⟨fun _ _ => rfl, rfl, fun sid h => HttpResponse.noConfusion h⟩
    · refine ⟨fun h _ => ?_, rfl, fun sid h => HttpResponse.noConfusion h⟩
      rcases h with h | h <;> exact Method.noConfusion h
    · exact ⟨fun _ _ => rfl, rfl, fun sid h => HttpResponse.noConfusion h⟩
  · have hb : ("/mcp" == p) = false := beq_eq_false_iff_ne.mpr (Ne.symm hp)
    have hnone : dispatchHttp ⟨m, p, hdr⟩ s = (HttpResponse.notFound404, s) := by
      simp [dispatchHttp, routes, List.find?, hb]
    refine ⟨fun _ hpp => absurd hpp hp, ?_, ?_⟩
    · rw [hnone]
    · intro sid
      rw [hnone]
      exact fun h => HttpResponse.noConfusion h

/-- C10 witness: a GET /mcp request carrying a session header that even
matches a registered transport still receives the 405 response and
leaves the session map untouched. -/
theorem http_get_delete_always_405_witness :
    dispatchHttp
        { method := Method.get, path := "/mcp", sessionIdHeader := some "abc123" }
        { transports := [("abc123", 0)] } =
      (HttpResponse.methodNotAllowed405 methodNotAllowedBody,
        { transports := [("abc123", 0)] }) :=
  (http_get_delete_always_405 { transports := [("abc123", 0)] }
    { method := Method.get, path := "/mcp", sessionIdHeader := some "abc123" }).1
    (Or.inl rfl) rfl
